/-
Verification of the filtering and aggregation pipeline of the
real-estate dashboard (src/data_loader.py) against its specification.

Shallow embedding: a pandas DataFrame of listings is a `List Listing`;
numeric columns (`precio`, `metros`) are rationals; the nullable
`ubicacion` column is `Option String`.  Each Lean definition below is
translated from the corresponding Python function in data_loader.py.
-/
import Mathlib

/-- One row of the dataset (§3 of the spec; columns of the CSV consumed
by data_loader.py).  `ubicacion` may be null (NaN in pandas), hence
`Option String`; `numero_planta` likewise. -/
structure Listing where
  precio : ℚ
  metros : ℚ
  habitaciones : ℕ
  ubicacion : Option String
  vendedor : String
  ascensor : Bool
  planta : String
  numero_planta : Option ℚ
  deriving Repr, DecidableEq

/-- Membership test of a nullable value in a criteria list, as pandas
`Series.isin` behaves on a column with NaN: a null entry is never a
member of a list of strings. -/
def isinOpt (o : Option String) (s : List String) : Bool :=
  match o with
  | none => false
  | some x => s.contains x

/-- `apply_filters` (data_loader.py:33-60), translated step by step:
a range filter on `precio` and `metros` always applied, then one
conditional `isin` filter per categorical dimension, each applied only
when the selection list is truthy (non-empty). -/
def apply_filters (df : List Listing) (precio_range : ℚ × ℚ)
    (metros_range : ℚ × ℚ) (habitaciones : List ℕ)
    (ubicaciones : List String) (vendedor : List String) : List Listing :=
  let filtered := df.filter (fun r =>
    decide (precio_range.1 ≤ r.precio) && decide (r.precio ≤ precio_range.2) &&
    decide (metros_range.1 ≤ r.metros) && decide (r.metros ≤ metros_range.2))
  let filtered := if habitaciones.isEmpty then filtered
    else filtered.filter (fun r => habitaciones.contains r.habitaciones)
  let filtered := if ubicaciones.length > 0
    then filtered.filter (fun r => isinOpt r.ubicacion ubicaciones)
    else filtered
  let filtered := if vendedor.isEmpty then filtered
    else filtered.filter (fun r => vendedor.contains r.vendedor)
  filtered

/-- The single-pass conjunction predicate of §4.2: both range predicates
always, each categorical membership only when the selection is
non-empty. -/
def rowPasses (precio_range : ℚ × ℚ) (metros_range : ℚ × ℚ)
    (habitaciones : List ℕ) (ubicaciones : List String)
    (vendedor : List String) (r : Listing) : Bool :=
  decide (precio_range.1 ≤ r.precio) && decide (r.precio ≤ precio_range.2) &&
  decide (metros_range.1 ≤ r.metros) && decide (r.metros ≤ metros_range.2) &&
  (habitaciones.isEmpty || habitaciones.contains r.habitaciones) &&
  (ubicaciones.isEmpty || isinOpt r.ubicacion ubicaciones) &&
  (vendedor.isEmpty || vendedor.contains r.vendedor)

/-! ## Metrics (calculate_metrics, get_precio_m2) -/

/-- Mean of a pandas numeric Series: on an empty series pandas yields
NaN; the embedding returns `none` for that undefined sentinel. -/
def meanQ (l : List ℚ) : Option ℚ :=
  if l = [] then none else some (l.sum / l.length)

/-- The per-row division `precio / metros.replace(0, 1)`: pandas
`replace(0, 1)` substitutes 1 for a denominator that is exactly 0 and
leaves every other value (including fractions below 1) unchanged. -/
def replace0with1 (q : ℚ) : ℚ :=
  if q = 0 then 1 else q

/-- The derived price-per-area of one row, as computed identically at
the three sites in data_loader.py (lines 69, 80, 89). -/
def rowPricePerArea (r : Listing) : ℚ :=
  r.precio / replace0with1 r.metros

/-- `calculate_metrics` (data_loader.py:63-71): mean price, mean of the
per-row price-per-area series, mean area. -/
def calculate_metrics (df : List Listing) : Option ℚ × Option ℚ × Option ℚ :=
  let precio_medio := meanQ (df.map (·.precio))
  let precio_m2 := meanQ (df.map (fun r => r.precio / replace0with1 r.metros))
  let metros_medios := meanQ (df.map (·.metros))
  (precio_medio, precio_m2, metros_medios)

/-- `get_precio_m2` (data_loader.py:74-81): a copy of the dataframe with
one extra column `precio_m2`; a row of the result is the original row
paired with its derived value. -/
def get_precio_m2 (df : List Listing) : List (Listing × ℚ) :=
  df.map (fun r => (r, r.precio / replace0with1 r.metros))

/-- `price / max(area, 1)`, written from the spec's words
(§3 DerivedPricePerArea), for comparison with the code's formula. -/
def specPricePerArea (r : Listing) : ℚ :=
  r.precio / max r.metros 1

/-! ## Grouped statistics (get_grouped_stats)

pandas building blocks.  `Series.unique` returns the distinct values in
first-occurrence order (`firstOccs`).  `Series.value_counts` counts the
distinct values and sorts descending by count; on the small inputs of
this dashboard numpy's sort is the stable insertion sort, so ties keep
the first-occurrence order of the keys, modelled by the stable
`List.insertionSort`.  `DataFrame.groupby(k)` (default `sort=True`,
`dropna=True`) produces one group per distinct non-null key, with the
keys sorted ascending. -/

/-- Distinct values in first-occurrence order (pandas `unique`). -/
def firstOccs {α : Type} [DecidableEq α] : List α → List α
  | [] => []
  | x :: xs => x :: (firstOccs xs).filter (fun y => decide (y ≠ x))

/-- Mean of a non-empty group of values. -/
def meanOf (l : List ℚ) : ℚ := l.sum / l.length

/-- pandas `Series.value_counts()` (default `sort=True, dropna=True`;
the caller drops nulls before passing the list in). -/
def valueCounts {α : Type} [DecidableEq α] (l : List α) : List (α × ℕ) :=
  ((firstOccs l).map (fun k => (k, l.count k))).insertionSort
    (fun a b => b.2 ≤ a.2)

/-- `_df['habitaciones'].value_counts().sort_index()`
(data_loader.py:92). -/
def habitacion_count (df : List Listing) : List (ℕ × ℕ) :=
  (valueCounts (df.map (·.habitaciones))).insertionSort (fun a b => a.1 ≤ b.1)

/-- `_df.groupby('habitaciones')['precio'].mean()` (data_loader.py:93):
group keys ascending, mean price per group. -/
def precio_hab (df : List Listing) : List (ℕ × ℚ) :=
  ((firstOccs (df.map (·.habitaciones))).insertionSort (· ≤ ·)).map
    (fun k => (k, meanOf ((df.filter (fun r => r.habitaciones == k)).map (·.precio))))

/-- `_df['ubicacion'].value_counts().head(10)` (data_loader.py:94). -/
def ubicacion_count (df : List Listing) : List (String × ℕ) :=
  (valueCounts (df.filterMap (·.ubicacion))).take 10

/-- `_df.groupby('ubicacion')['precio'].mean()
    .sort_values(ascending=False).head(10)` (data_loader.py:95):
groupby sorts the non-null location keys ascending, then the means are
sorted descending and truncated to ten. -/
def precio_ubicacion (df : List Listing) : List (String × ℚ) :=
  (((((firstOccs (df.filterMap (·.ubicacion))).insertionSort (· ≤ ·)).map
    (fun k => (k, meanOf ((df.filter (fun r => r.ubicacion == some k)).map
      (·.precio))))).insertionSort (fun a b => b.2 ≤ a.2))).take 10

/-- `_df['ascensor'].value_counts()` (data_loader.py:96). -/
def ascensor_counts (df : List Listing) : List (Bool × ℕ) :=
  valueCounts (df.map (·.ascensor))

/-- `_df['planta'].value_counts().head(10)` (data_loader.py:97). -/
def planta_counts (df : List Listing) : List (String × ℕ) :=
  (valueCounts (df.map (·.planta))).take 10

/-- `_df['vendedor'].value_counts()` (data_loader.py:98). -/
def vendedor_count (df : List Listing) : List (String × ℕ) :=
  valueCounts (df.map (·.vendedor))

/-- `_df.groupby('vendedor')['precio'].mean()` (data_loader.py:99). -/
def precio_vendedor (df : List Listing) : List (String × ℚ) :=
  ((firstOccs (df.map (·.vendedor))).insertionSort (· ≤ ·)).map
    (fun k => (k, meanOf ((df.filter (fun r => r.vendedor == k)).map (·.precio))))

/-- `precio_m2_df.groupby('vendedor')['precio_m2'].mean()`
(data_loader.py:100), on the copy carrying the derived column of
data_loader.py:89. -/
def precio_m2_vendedor (df : List Listing) : List (String × ℚ) :=
  ((firstOccs (df.map (·.vendedor))).insertionSort (· ≤ ·)).map
    (fun k => (k, meanOf ((df.filter (fun r => r.vendedor == k)).map
      (fun r => r.precio / replace0with1 r.metros))))

/-- The bundle returned by `get_grouped_stats` (data_loader.py:84-101),
one field per key of the Python dict. -/
structure GroupedStats where
  habitacion_count : List (ℕ × ℕ)
  precio_hab : List (ℕ × ℚ)
  ubicacion_count : List (String × ℕ)
  precio_ubicacion : List (String × ℚ)
  ascensor_counts : List (Bool × ℕ)
  planta_counts : List (String × ℕ)
  vendedor_count : List (String × ℕ)
  precio_vendedor : List (String × ℚ)
  precio_m2_vendedor : List (String × ℚ)
  deriving Repr, DecidableEq

/-- `get_grouped_stats` (data_loader.py:84-101). -/
def get_grouped_stats (df : List Listing) : GroupedStats where
  habitacion_count := habitacion_count df
  precio_hab := precio_hab df
  ubicacion_count := ubicacion_count df
  precio_ubicacion := precio_ubicacion df
  ascensor_counts := ascensor_counts df
  planta_counts := planta_counts df
  vendedor_count := vendedor_count df
  precio_vendedor := precio_vendedor df
  precio_m2_vendedor := precio_m2_vendedor df

/-! ## Filter options (get_filter_options) -/

/-- Python `int(...)` on a float: truncation toward zero. -/
def pyInt (q : ℚ) : ℤ := if q < 0 then ⌈q⌉ else ⌊q⌋

/-- The tuple returned by `get_filter_options` (data_loader.py:17-30). -/
structure FilterOptions where
  precio_min : ℤ
  precio_max : ℤ
  metros_min : ℤ
  metros_max : ℤ
  habitaciones : List ℕ
  ubicaciones : List String
  vendedores : List String
  deriving Repr, DecidableEq

/-- `get_filter_options` (data_loader.py:17-30).  On an empty dataframe
`Series.min()`/`max()` yield NaN and Python's `int(NaN)` raises
`ValueError`; the embedding returns `none` for that failure. -/
def get_filter_options (df : List Listing) : Option FilterOptions :=
  match (df.map (·.precio)).min?, (df.map (·.precio)).max?,
        (df.map (·.metros)).min?, (df.map (·.metros)).max? with
  | some pmin, some pmax, some mmin, some mmax =>
      some { precio_min := pyInt pmin, precio_max := pyInt pmax,
             metros_min := pyInt mmin, metros_max := pyInt mmax,
             habitaciones := (firstOccs (df.map (·.habitaciones))).insertionSort (· ≤ ·),
             ubicaciones := firstOccs (df.filterMap (·.ubicacion)),
             vendedores := firstOccs (df.map (·.vendedor)) }
  | _, _, _, _ => none

/-! ## Helper lemmas and concrete datasets used by the scenarios -/

/-- A row with the fields the scenarios vary; the remaining columns are
fixed to arbitrary values. -/
def mkRow (p m : ℚ) (hab : ℕ) (u : Option String) (v : String) : Listing :=
  { precio := p, metros := m, habitaciones := hab, ubicacion := u,
    vendedor := v, ascensor := false, planta := "bajo", numero_planta := none }

/-- Scenario A dataset: prices [100000, 200000, 300000], areas
[50, 0, 100]. -/
def dsA : List Listing :=
  [mkRow 100000 50 1 (some "A") "Particular",
   mkRow 200000 0 2 (some "B") "Agencia",
   mkRow 300000 100 2 (some "C") "Agencia"]

/-- Scenario B dataset: rooms [1, 2, 2, 3]. -/
def dsB : List Listing :=
  [mkRow 10 10 1 (some "A") "Particular",
   mkRow 20 20 2 (some "B") "Agencia",
   mkRow 30 30 2 (some "C") "Particular",
   mkRow 40 40 3 (some "D") "Agencia"]

/-- Two rows with equal price and equal area whose locations occur in
the order "B", "A": a tie for the location aggregates. -/
def dsTie : List Listing :=
  [mkRow 100 50 1 (some "B") "Particular",
   mkRow 100 50 2 (some "A") "Particular"]

/-- A one-row dataset with fractional price and area. -/
def dsHalf : List Listing := [mkRow (1/2) (3/2) 1 none "Particular"]

instance descBySndIsTotal {α β : Type} [LinearOrder β] :
    IsTotal (α × β) (fun a b => b.2 ≤ a.2) :=
  ⟨fun a b => le_total b.2 a.2⟩

instance descBySndIsTrans {α β : Type} [LinearOrder β] :
    IsTrans (α × β) (fun a b => b.2 ≤ a.2) :=
  ⟨fun _ _ _ hab hbc => le_trans hbc hab⟩

theorem apply_filters_eq_filter (df : List Listing) (pr mr : ℚ × ℚ)
    (h : List ℕ) (u v : List String) :
    apply_filters df pr mr h u v = df.filter (rowPasses pr mr h u v) := by
  unfold apply_filters
  split_ifs <;>
    simp only [List.filter_filter] <;>
    refine List.filter_congr (fun r _ => ?_) <;>
    rw [Bool.eq_iff_iff] <;>
    simp_all [rowPasses, List.isEmpty_iff, List.length_pos] <;>
    tauto

theorem pairwise_desc_valueCounts {α : Type} [DecidableEq α] (l : List α) :
    (valueCounts l).Pairwise (fun a b => b.2 ≤ a.2) := by
  unfold valueCounts
  exact List.sorted_insertionSort _ _

theorem mem_firstOccs {α : Type} [DecidableEq α] {a : α} :
    ∀ {l : List α}, a ∈ firstOccs l ↔ a ∈ l
  | [] => Iff.rfl
  | x :: xs => by
    by_cases hax : a = x
    · subst hax
      simp [firstOccs]
    · simp only [firstOccs, List.mem_cons, List.mem_filter,
        mem_firstOccs (l := xs), hax, false_or, decide_eq_true_eq,
        ne_eq, not_false_iff, and_true]

theorem nodup_firstOccs {α : Type} [DecidableEq α] :
    ∀ l : List α, (firstOccs l).Nodup
  | [] => List.nodup_nil
  | x :: xs => by
    refine List.nodup_cons.mpr ⟨?_, List.Nodup.filter _ (nodup_firstOccs xs)⟩
    intro hx
    exact (by simpa using (List.mem_filter.mp hx).2 : x ≠ x) rfl

/-! ## C1 -/

/-- C1: `apply_filters` returns exactly the rows satisfying the
conjunction of the two inclusive range predicates and the three
conditional categorical membership predicates, in original order
(single-pass filter); Scenario B: an empty room set leaves the rows
[1,2,2,3] untouched, the room set {2} keeps exactly the two rows with
rooms = 2, in order. -/
theorem C1_apply_filters_conjunction :
    (∀ (df : List Listing) (pr mr : ℚ × ℚ) (h : List ℕ)
        (u v : List String),
      apply_filters df pr mr h u v = df.filter (rowPasses pr mr h u v)) ∧
    apply_filters dsB (0, 1000000) (0, 1000000) [] [] [] = dsB ∧
    apply_filters dsB (0, 1000000) (0, 1000000) [2] [] [] =
      [mkRow 20 20 2 (some "B") "Agencia",
       mkRow 30 30 2 (some "C") "Particular"] :=
  ⟨apply_filters_eq_filter, by decide, by decide⟩

/-! ## C2 -/

/-- C2: the second component of `calculate_metrics` is the mean of the
per-row derived price-per-area values; on Scenario A it is 205000/3,
which differs from mean price divided by mean area (200000/50). -/
theorem C2_mean_price_per_area :
    (∀ df : List Listing,
      (calculate_metrics df).2.1 = meanQ (df.map rowPricePerArea)) ∧
    (calculate_metrics dsA).2.1 = some (205000 / 3 : ℚ) ∧
    (calculate_metrics dsA).1 = some 200000 ∧
    (calculate_metrics dsA).2.2 = some 50 ∧
    (205000 / 3 : ℚ) ≠ 200000 / 50 := by
  refine ⟨fun _ => rfl, ?_, ?_, ?_, ?_⟩ <;>
    norm_num [calculate_metrics, dsA, mkRow, meanQ, replace0with1] <;>
    simp

/-! ## C5 -/

/-- C5: the output of `apply_filters` is a sublist of the input: every
output row occurs in the input, no row is duplicated beyond its input
multiplicity, and the surviving rows keep their original order. -/
theorem C5_apply_filters_sublist (df : List Listing) (pr mr : ℚ × ℚ)
    (h : List ℕ) (u v : List String) :
    List.Sublist (apply_filters df pr mr h u v) df := by
  rw [apply_filters_eq_filter]
  exact List.filter_sublist df

/-! ## C6 -/

/-- C6: on the empty dataset every grouping of `get_grouped_stats` is
the empty mapping and `calculate_metrics` returns the undefined
sentinel (`none`, the embedding of pandas' NaN) for each mean; neither
function fails. -/
theorem C6_empty_dataset_degrades :
    get_grouped_stats ([] : List Listing) =
      { habitacion_count := [], precio_hab := [], ubicacion_count := [],
        precio_ubicacion := [], ascensor_counts := [], planta_counts := [],
        vendedor_count := [], precio_vendedor := [], precio_m2_vendedor := [] } ∧
    calculate_metrics ([] : List Listing) = (none, none, none) :=
  ⟨rfl, rfl⟩

/-! ## C8 -/

/-- C8: `get_precio_m2` returns the rows of its (unmutated) argument in
order, each extended by exactly the derived price-per-area column:
projecting the extra column away recovers the input, and the extra
column is the per-row derived value. -/
theorem C8_price_per_area_column (df : List Listing) :
    (get_precio_m2 df).map Prod.fst = df ∧
    (get_precio_m2 df).length = df.length ∧
    (get_precio_m2 df).map Prod.snd = df.map rowPricePerArea := by
  refine ⟨(List.map_map _ _ _).trans (List.map_id df), ?_, ?_⟩ <;>
    simp [get_precio_m2, rowPricePerArea, List.map_map, Function.comp]

/-! ## C3 -/

/-- C3 counterexample: the claim derives price-per-area as
`price / max(area, 1)` for every numeric area the data model admits,
but the code substitutes 1 only for an area of exactly 0.  On a row
with price 1 and area 1/2 the code computes 1 / (1/2) = 2 while the
claimed formula gives 1 / max(1/2, 1) = 1. -/
theorem C3_counterexample :
    rowPricePerArea (mkRow 1 (1/2) 1 none "Particular") = 2 ∧
    specPricePerArea (mkRow 1 (1/2) 1 none "Particular") = 1 ∧
    rowPricePerArea (mkRow 1 (1/2) 1 none "Particular") ≠
      specPricePerArea (mkRow 1 (1/2) 1 none "Particular") := by
  norm_num [rowPricePerArea, specPricePerArea, replace0with1, mkRow, max_def]

/-- C3 amended: wherever price-per-area is derived (calculate_metrics,
get_precio_m2, get_grouped_stats) the row value is price divided by
(area if area ≠ 0, else 1): the guard substitutes 1 only for an area of
exactly 0, so a row with area 0 yields price / 1, and the value agrees
with the spec's `price / max(area, 1)` whenever the area is 0 or at
least 1 (in particular for every integer area), but not for fractional
areas strictly between 0 and 1. -/
theorem C3_division_guard (r : Listing) :
    (r.metros = 0 → rowPricePerArea r = r.precio / 1) ∧
    (r.metros ≠ 0 → rowPricePerArea r = r.precio / r.metros) ∧
    (r.metros = 0 ∨ 1 ≤ r.metros → rowPricePerArea r = specPricePerArea r) ∧
    (calculate_metrics [r]).2.1 = some (rowPricePerArea r) ∧
    get_precio_m2 [r] = [(r, rowPricePerArea r)] ∧
    (get_grouped_stats [r]).precio_m2_vendedor =
      [(r.vendedor, rowPricePerArea r)] := by
  refine ⟨?_, ?_, ?_, ?_, rfl, ?_⟩
  · intro h0
    simp [rowPricePerArea, replace0with1, h0]
  · intro h0
    simp [rowPricePerArea, replace0with1, h0]
  · rintro (h0 | h1)
    · rw [rowPricePerArea, specPricePerArea, replace0with1, if_pos h0, h0,
        max_eq_right (zero_le_one)]
    · have h0 : r.metros ≠ 0 := (lt_of_lt_of_le one_pos h1).ne.symm
      rw [rowPricePerArea, specPricePerArea, replace0with1, if_neg h0,
        max_eq_left h1]
  · simp [calculate_metrics, meanQ, rowPricePerArea]
  · simp [get_grouped_stats, precio_m2_vendedor, firstOccs, meanOf,
      rowPricePerArea, List.insertionSort, List.orderedInsert]

/-- Instantiation of the division guard at a row with area exactly 0. -/
theorem C3_division_guard_w :
    rowPricePerArea (mkRow 7 0 1 none "Particular") = 7 / 1 :=
  (C3_division_guard (mkRow 7 0 1 none "Particular")).1 rfl

/-! ## C4 -/

/-- C4 counterexample: on two rows with equal prices whose locations
occur in the order "B", "A", the mean-price-per-location aggregate
orders the tied locations alphabetically ("A" before "B", inherited
from the ascending groupby key sort), not by first occurrence in the
source dataset ("B" before "A") as the claim states. -/
theorem C4_counterexample :
    precio_ubicacion dsTie = [("A", 100), ("B", 100)] ∧
    firstOccs (dsTie.filterMap (·.ubicacion)) = ["B", "A"] ∧
    precio_ubicacion dsTie ≠ [("B", 100), ("A", 100)] := by
  have e1 : precio_ubicacion dsTie = [("A", 100), ("B", 100)] := by
    simp [precio_ubicacion, dsTie, mkRow, firstOccs, meanOf,
      List.insertionSort, List.orderedInsert, beq_iff_eq, List.filter_cons]
  refine ⟨e1, by simp [dsTie, mkRow, firstOccs], ?_⟩
  rw [e1]
  simp

/-- C4 amended: both top-10 location aggregates contain at most 10
entries and are ordered descending by their stated key; ties in the
count aggregate keep the first-occurrence order of the locations
(stable sort of the value counts), while ties in the mean-price
aggregate are ordered by location name ascending (the groupby pre-sorts
the keys), not by first occurrence. -/
theorem C4_top10_aggregates :
    (∀ df : List Listing,
      (ubicacion_count df).length ≤ 10 ∧
      (precio_ubicacion df).length ≤ 10 ∧
      (ubicacion_count df).Pairwise (fun a b => b.2 ≤ a.2) ∧
      (precio_ubicacion df).Pairwise (fun a b => b.2 ≤ a.2)) ∧
    ubicacion_count dsTie = [("B", 1), ("A", 1)] := by
  constructor
  · intro df
    refine ⟨List.length_take_le 10 _, List.length_take_le 10 _, ?_, ?_⟩
    · exact List.Pairwise.sublist (List.take_sublist 10 _)
        (pairwise_desc_valueCounts _)
    · exact List.Pairwise.sublist (List.take_sublist 10 _)
        (List.sorted_insertionSort _ _)
  · simp [ubicacion_count, valueCounts, dsTie, mkRow, firstOccs,
      List.insertionSort, List.orderedInsert, List.count_cons,
      beq_iff_eq]

/-! ## C7 -/

/-- C7 counterexample: the claim says the returned price bounds equal
the dataset's true min and max over all numeric prices the data model
admits, but the code wraps them in Python `int(...)`: on a one-row
dataset with price 1/2 the returned minimum is the truncation 0, not
the true minimum 1/2. -/
theorem C7_counterexample :
    (get_filter_options dsHalf).map FilterOptions.precio_min = some 0 ∧
    (dsHalf.map (·.precio)).min? = some ((1 : ℚ)/2) ∧
    ¬ (((0 : ℤ) : ℚ) = (1 : ℚ)/2) := by
  have hred : get_filter_options dsHalf =
      some { precio_min := pyInt ((1 : ℚ)/2), precio_max := pyInt ((1 : ℚ)/2),
             metros_min := pyInt ((3 : ℚ)/2), metros_max := pyInt ((3 : ℚ)/2),
             habitaciones := [1], ubicaciones := [],
             vendedores := ["Particular"] } := rfl
  have hfl : ⌊(1 : ℚ)/2⌋ = 0 := by
    rw [Int.floor_eq_zero_iff]
    constructor <;> norm_num
  refine ⟨?_, rfl, by norm_num⟩
  rw [hred]
  show some (pyInt ((1 : ℚ)/2)) = some (0 : ℤ)
  rw [pyInt, if_neg (by norm_num), hfl]

/-- C7 amended: on a non-empty dataset `get_filter_options` succeeds
and returns the Python-int truncations of the true minima and maxima of
price and area (these equal the true bounds exactly when the bounds are
integers), together with the sorted distinct room counts, the distinct
non-null locations and the distinct seller types (both in
first-occurrence order). -/
theorem C7_filter_options (df : List Listing) (hne : df ≠ []) :
    ∃ fo : FilterOptions, get_filter_options df = some fo ∧
      some fo.precio_min = ((df.map (·.precio)).min?).map pyInt ∧
      some fo.precio_max = ((df.map (·.precio)).max?).map pyInt ∧
      some fo.metros_min = ((df.map (·.metros)).min?).map pyInt ∧
      some fo.metros_max = ((df.map (·.metros)).max?).map pyInt ∧
      fo.habitaciones.Pairwise (· ≤ ·) ∧
      fo.habitaciones.Nodup ∧
      (∀ n : ℕ, n ∈ fo.habitaciones ↔ n ∈ df.map (·.habitaciones)) ∧
      fo.ubicaciones.Nodup ∧
      (∀ s : String, s ∈ fo.ubicaciones ↔ some s ∈ df.map (·.ubicacion)) ∧
      fo.vendedores.Nodup ∧
      (∀ s : String, s ∈ fo.vendedores ↔ s ∈ df.map (·.vendedor)) := by
  cases df with
  | nil => exact absurd rfl hne
  | cons a l =>
    obtain ⟨x1, hx1⟩ := Option.ne_none_iff_exists'.mp
      (show ((a :: l).map (·.precio)).min? ≠ none by simp)
    obtain ⟨x2, hx2⟩ := Option.ne_none_iff_exists'.mp
      (show ((a :: l).map (·.precio)).max? ≠ none by simp)
    obtain ⟨x3, hx3⟩ := Option.ne_none_iff_exists'.mp
      (show ((a :: l).map (·.metros)).min? ≠ none by simp)
    obtain ⟨x4, hx4⟩ := Option.ne_none_iff_exists'.mp
      (show ((a :: l).map (·.metros)).max? ≠ none by simp)
    refine ⟨{ precio_min := pyInt x1, precio_max := pyInt x2,
              metros_min := pyInt x3, metros_max := pyInt x4,
              habitaciones :=
                (firstOccs ((a :: l).map (·.habitaciones))).insertionSort (· ≤ ·),
              ubicaciones := firstOccs ((a :: l).filterMap (·.ubicacion)),
              vendedores := firstOccs ((a :: l).map (·.vendedor)) },
            ?_, ?_, ?_, ?_, ?_, ?_, ?_, ?_, ?_, ?_, ?_, ?_⟩
    · simp only [get_filter_options, hx1, hx2, hx3, hx4]
    · rw [hx1]; rfl
    · rw [hx2]; rfl
    · rw [hx3]; rfl
    · rw [hx4]; rfl
    · exact List.sorted_insertionSort _ _
    · exact (List.perm_insertionSort _ _).nodup_iff.mpr (nodup_firstOccs _)
    · intro n
      exact ((List.perm_insertionSort _ _).mem_iff).trans mem_firstOccs
    · exact nodup_firstOccs _
    · intro s
      rw [mem_firstOccs]
      simp only [List.mem_filterMap, List.mem_map, List.mem_cons]
    · exact nodup_firstOccs _
    · intro s
      exact mem_firstOccs

/-- Instantiation of the filter-options contract on Scenario B's
dataset. -/
theorem C7_filter_options_w : (get_filter_options dsB).isSome := by
  obtain ⟨fo, hfo, -⟩ := C7_filter_options dsB (by simp [dsB])
  rw [hfo]
  rfl

/-! ## C9 -/

/-- C9: with a non-empty location selection every surviving row has a
non-null location (a null location never satisfies the membership
test), while with an empty location selection the effective predicate
does not constrain the location column at all: it mentions only the
ranges, the rooms and the seller type. -/
theorem C9_null_location_excluded (df : List Listing) (pr mr : ℚ × ℚ)
    (h : List ℕ) (u v : List String) (hu : u ≠ []) :
    (∀ r ∈ apply_filters df pr mr h u v, r.ubicacion ≠ none) ∧
    (∀ r : Listing, rowPasses pr mr h [] v r =
      (decide (pr.1 ≤ r.precio) && decide (r.precio ≤ pr.2) &&
       decide (mr.1 ≤ r.metros) && decide (r.metros ≤ mr.2) &&
       (h.isEmpty || h.contains r.habitaciones) &&
       (v.isEmpty || v.contains r.vendedor))) := by
  constructor
  · intro r hr hnone
    rw [apply_filters_eq_filter] at hr
    have hp := (List.mem_filter.mp hr).2
    have hue : u.isEmpty = false := by simpa [List.isEmpty_iff] using hu
    rw [rowPasses] at hp
    simp [hnone, isinOpt, hue] at hp
  · intro r
    rw [rowPasses]
    simp

/-- Instantiation of the null-location exclusion: with selection ["A"]
the surviving concrete row has a non-null location. -/
theorem C9_null_location_excluded_w :
    (mkRow 10 10 1 (some "A") "Particular").ubicacion ≠ none :=
  (C9_null_location_excluded
      [mkRow 10 10 1 (some "A") "Particular",
       mkRow 10 10 1 none "Particular"]
      (0, 100) (0, 100) [] ["A"] [] (by decide)).1
    (mkRow 10 10 1 (some "A") "Particular") (by decide)

/-! ## C10 -/

/-- C10: on the empty dataset `get_filter_options` fails (`none` embeds
the ValueError raised by `int(NaN)` when the min/max of zero rows is
converted to an integer), and it fails only there: non-emptiness of the
dataset is exactly its precondition. -/
theorem C10_filter_options_empty_fails :
    get_filter_options ([] : List Listing) = none ∧
    ∀ df : List Listing, get_filter_options df = none ↔ df = [] := by
  refine ⟨rfl, fun df => ?_⟩
  cases df with
  | nil => exact iff_of_true rfl rfl
  | cons a l =>
    obtain ⟨x1, hx1⟩ := Option.ne_none_iff_exists'.mp
      (show ((a :: l).map (·.precio)).min? ≠ none by simp)
    obtain ⟨x2, hx2⟩ := Option.ne_none_iff_exists'.mp
      (show ((a :: l).map (·.precio)).max? ≠ none by simp)
    obtain ⟨x3, hx3⟩ := Option.ne_none_iff_exists'.mp
      (show ((a :: l).map (·.metros)).min? ≠ none by simp)
    obtain ⟨x4, hx4⟩ := Option.ne_none_iff_exists'.mp
      (show ((a :: l).map (·.metros)).max? ≠ none by simp)
    simp [get_filter_options, hx1, hx2, hx3, hx4]
